import Mathlib

set_option autoImplicit false

/-!
Shallow embedding of the GoogleDriveService core of the wecare document-management
client (source: the service module defining `GoogleDriveService`), together with
proofs about its folder provisioning, upload, listing, metadata-update and
deletion operations.

Remote HTTP calls are modelled by explicit oracle environments: each call site of
the source receives its outcome (parsed response or thrown-error rendering) from
an environment record, and every operation additionally returns the list of
remote calls it performed, so that claims about which network requests happen can
be stated.  Error strings supplied by an environment stand for the rendering of
the thrown error at that site; error strings produced by in-source `throw new
Error(...)` statements are reproduced literally.
-/

namespace WeCare

/-- JavaScript truthiness of a nullable string (`null`/`undefined` and the empty
string are falsy), used for the source conditions such as
`if (!this.accessToken)` and `if (!this.docsFolderId)`. -/
def truthy : Option String → Bool
  | some s => !(s = "")
  | none => false

/-- JavaScript `a || b` for a possibly-absent string `a`: the empty string is
falsy and falls through to the default. -/
def orDefaultStr (a : Option String) (b : String) : String :=
  match a with
  | some s => if s = "" then b else s
  | none => b

/-- Rendering of a JavaScript `Error` object in string concatenation:
`'prefix' + error` yields `prefix + "Error: " + message`. -/
def errStr (msg : String) : String := "Error: " ++ msg

/-- The `FileMetadata` interface of the source (a sidecar record).  Timestamps
are abstracted to `Nat` clock values (the source stores ISO strings produced
from the current time).  `fileUrl` is the property attached dynamically by
`listFiles`; it is absent (`none`) in records as written by `uploadFile`. -/
structure FileMetadata where
  id : String
  name : String
  mimeType : String
  size : Nat
  createdTime : Nat
  modifiedTime : Nat
  description : Option String
  tags : List String
  category : Option String
  documentName : Option String
  fileUrl : Option String
  deriving Repr, DecidableEq

/-- `Partial<FileMetadata>` of the source: each interface field is optionally
present.  (`fileUrl` is not part of the TypeScript interface, so it is not part
of a partial either.) -/
structure PartialMetadata where
  id : Option String
  name : Option String
  mimeType : Option String
  size : Option Nat
  createdTime : Option Nat
  modifiedTime : Option Nat
  description : Option String
  tags : Option (List String)
  category : Option String
  documentName : Option String
  deriving Repr, DecidableEq

/-- The all-absent partial (`{}` in the source). -/
def emptyPartial : PartialMetadata :=
  ⟨none, none, none, none, none, none, none, none, none, none⟩

/-- The object spread `{...existing, ...partial}` used by `updateMetadata`:
every field present in the partial overwrites the corresponding field of the
existing record; absent fields keep the existing value.  `fileUrl` is never in
a partial, so the existing value is kept. -/
def mergeMetadata (existing : FileMetadata) (p : PartialMetadata) : FileMetadata :=
  { id := p.id.getD existing.id
    name := p.name.getD existing.name
    mimeType := p.mimeType.getD existing.mimeType
    size := p.size.getD existing.size
    createdTime := p.createdTime.getD existing.createdTime
    modifiedTime := p.modifiedTime.getD existing.modifiedTime
    description := match p.description with
      | some d => some d
      | none => existing.description
    tags := p.tags.getD existing.tags
    category := match p.category with
      | some c => some c
      | none => existing.category
    documentName := match p.documentName with
      | some d => some d
      | none => existing.documentName
    fileUrl := existing.fileUrl }

/-- `UploadResult` of the source. -/
structure UploadResult where
  success : Bool
  fileId : Option String
  metadataId : Option String
  error : Option String
  deriving Repr, DecidableEq

/-- The mutable fields of the `GoogleDriveService` singleton. -/
structure ServiceState where
  accessToken : Option String
  rootFolderId : Option String
  docsFolderId : Option String
  metadataFolderId : Option String
  settingsFolderId : Option String
  deriving Repr, DecidableEq

def ROOT_FOLDER_NAME : String := "wecare"

def DOCS_FOLDER_NAME : String := "docs"

def METADATA_FOLDER_NAME : String := "metadata"

def SETTINGS_FOLDER_NAME : String := "settings"

/-- `100 * 1024 * 1024` bytes, the upload size ceiling. -/
def MAX_FILE_SIZE : Nat := 100 * 1024 * 1024

/-- The structured size-limit message of `uploadFile`:
`File size exceeds limit of ${MAX_FILE_SIZE / (1024 * 1024)}MB`. -/
def sizeLimitError : String :=
  "File size exceeds limit of " ++ toString (MAX_FILE_SIZE / (1024 * 1024)) ++ "MB"

/-- The message thrown by `makeRequest` on a non-success HTTP status:
`Google Drive API error: ${response.status} - ${error}`. -/
def remoteApiErrorMsg (status : Nat) (body : String) : String :=
  "Google Drive API error: " ++ (toString status ++ (" - " ++ body))

/-! ### Folder provisioning, modelled over a concrete Drive folder state

`findOrCreateFolder` and `initializeFolderStructure` are modelled over an
explicit list of remote folders.  The search request
`name='N' and 'P' in parents and trashed=false` is a filter over that list in
the provider's enumeration order, folder creation appends a folder carrying a
fresh identifier, and a folder created without an explicit parent lands under
the implicit `root` parent (which is also what the omitted-parent search query
looks under).  All requests are assumed to succeed here; any request failure
aborts the whole routine in the source. -/

/-- One remote folder as seen by the search and create requests. -/
structure DriveFolder where
  folderId : String
  folderName : String
  parent : String
  trashed : Bool
  deriving Repr, DecidableEq

/-- The provider-side folder state: folders in enumeration order plus a
fresh-identifier counter. -/
structure DriveFolderState where
  folders : List DriveFolder
  nextId : Nat
  deriving Repr, DecidableEq

/-- The filter expressed by the query
`name='folderName' and 'parent' in parents and trashed=false`. -/
def folderQueryMatch (folderName parent : String) (f : DriveFolder) : Bool :=
  (f.folderName = folderName) && (f.parent = parent) && !f.trashed

/-- The search request of `findOrCreateFolder`. -/
def searchFolders (ds : DriveFolderState) (folderName parent : String) : List DriveFolder :=
  ds.folders.filter (folderQueryMatch folderName parent)

/-- Provider-assigned identifier for the nth created folder. -/
def freshFolderId (n : Nat) : String := "folder-" ++ toString n

/-- `findOrCreateFolder(folderName, parentId?)`: search for a non-trashed folder
of that exact name under the given parent (`root` when omitted); return the
first hit, else create the folder and return its new identifier. -/
def findOrCreateFolder (ds : DriveFolderState) (folderName : String)
    (parentId : Option String) : String × DriveFolderState :=
  match searchFolders ds folderName (parentId.getD ("root")) with
  | f :: _ => (f.folderId, ds)
  | [] =>
    (freshFolderId ds.nextId,
      ⟨ds.folders ++ [⟨freshFolderId ds.nextId, folderName, parentId.getD ("root"), false⟩],
        ds.nextId + 1⟩)

/-- The four folder identifiers captured by `initializeFolderStructure`. -/
structure FolderIds where
  root : String
  docs : String
  metadataFolder : String
  settings : String
  deriving Repr, DecidableEq

/-- `initializeFolderStructure()`: resolve or create the root folder, then the
three children of root, in order. -/
def initializeFolderStructure (ds : DriveFolderState) : FolderIds × DriveFolderState :=
  match findOrCreateFolder ds ROOT_FOLDER_NAME none with
  | (root, ds1) =>
    match findOrCreateFolder ds1 DOCS_FOLDER_NAME (some root) with
    | (docs, ds2) =>
      match findOrCreateFolder ds2 METADATA_FOLDER_NAME (some root) with
      | (metaId, ds3) =>
        match findOrCreateFolder ds3 SETTINGS_FOLDER_NAME (some root) with
        | (settings, ds4) => (⟨root, docs, metaId, settings⟩, ds4)

/-- Identifier of the first hit of the folder search, if any. -/
def firstFolderId (ds : DriveFolderState) (folderName parent : String) : Option String :=
  (searchFolders ds folderName parent).head?.map DriveFolder.folderId

/-- `ds2` extends `ds` by appending folders at the end of the enumeration. -/
def FoldersExtend (ds ds2 : DriveFolderState) : Prop :=
  ∃ extra, ds2.folders = ds.folders ++ extra

/-! ### Upload pipeline

`uploadFile` is modelled with the remote outcomes supplied by an `UploadEnv`
oracle.  Folder provisioning is abstracted here to its outcome (the concrete
behaviour is modelled above): when it runs with a token held, its first action
is always a folder request, and it performs some number of further folder
requests before succeeding with the four identifiers or throwing.  The two
source branches for React Native and web payloads perform the same modelled
steps (they differ only in the multipart transport encoding), so a payload is
just its declared name, MIME type and byte size. -/

/-- A remote call performed by the upload pipeline, tagged with the data the
claims are about: the name under which the content file is stored, and the
sidecar record written by `saveMetadata`. -/
inductive NetCall where
  | folderRequest
  | uploadRequest (storedName : String)
  | saveMetadataRequest (record : FileMetadata)
  deriving Repr, DecidableEq

/-- A file payload accepted by `uploadFile`. -/
structure UploadFilePayload where
  name : String
  type : String
  size : Nat
  deriving Repr, DecidableEq

/-- Remote outcomes for one `uploadFile` call.  `initOutcome` is the outcome of
`initializeFolderStructure` (its error string is the message it throws, already
carrying the `Failed to initialize folder structure: ` wrapping);
`initExtraCalls` counts its folder requests beyond the first.  `uploadOutcome`
is the binary upload: an error is the rendering of the thrown or non-ok
failure, `ok none` is a 2xx response whose JSON carries no `id`, `ok (some fid)`
is the provider-assigned identifier.  `saveOutcome` is the sidecar write of
`saveMetadata`.  `now` is the current clock value. -/
structure UploadEnv where
  initOutcome : Except String FolderIds
  initExtraCalls : Nat
  uploadOutcome : Except String (Option String)
  saveOutcome : Except String String
  now : Nat

/-- The sidecar `FileMetadata` object constructed by `uploadFile` after a
successful binary upload: `id` is the provider-assigned identifier, `name` is
the payload name (not the storage name), times are the current clock,
`tags` defaults to `[]` when absent. -/
def uploadSidecarRecord (env : UploadEnv) (file : UploadFilePayload)
    (meta : PartialMetadata) (fid : String) : FileMetadata :=
  ⟨fid, file.name, file.type, file.size, env.now, env.now,
    meta.description, meta.tags.getD [], meta.category, none, none⟩

/-- The part of `uploadFile` after the folder-structure check: size ceiling,
binary upload under `metadata.documentName || file.name`, sidecar write.
Every failure after the size check is a thrown error, wrapped by the outer
catch as `Upload failed: ` plus the inner message. -/
def uploadAfterInit (st : ServiceState) (env : UploadEnv) (file : UploadFilePayload)
    (meta : PartialMetadata) (calls : List NetCall) :
    Except String UploadResult × ServiceState × List NetCall :=
  if file.size > MAX_FILE_SIZE then
    (Except.ok ⟨false, none, none, some sizeLimitError⟩, st, calls)
  else
    match env.uploadOutcome with
    | Except.error e =>
      (Except.error ("Upload failed: " ++ e), st,
        calls ++ [NetCall.uploadRequest (orDefaultStr meta.documentName file.name)])
    | Except.ok none =>
      (Except.error ("Upload failed: " ++ "Upload response missing file ID"), st,
        calls ++ [NetCall.uploadRequest (orDefaultStr meta.documentName file.name)])
    | Except.ok (some fid) =>
      if truthy st.metadataFolderId = false then
        (Except.error ("Upload failed: " ++ "Metadata folder not initialized"), st,
          calls ++ [NetCall.uploadRequest (orDefaultStr meta.documentName file.name)])
      else
        match env.saveOutcome with
        | Except.error e =>
          (Except.error ("Upload failed: " ++ e), st,
            calls ++ [NetCall.uploadRequest (orDefaultStr meta.documentName file.name),
              NetCall.saveMetadataRequest (uploadSidecarRecord env file meta fid)])
        | Except.ok mid =>
          (Except.ok ⟨true, some fid, some mid, none⟩, st,
            calls ++ [NetCall.uploadRequest (orDefaultStr meta.documentName file.name),
              NetCall.saveMetadataRequest (uploadSidecarRecord env file meta fid)])

/-- `uploadFile(file, metadata)`.  The third component lists the remote calls
performed.  If the docs folder identifier is not yet held, folder provisioning
runs first; with no token held it throws before any network call, otherwise it
performs its folder requests and either throws or yields the four identifiers,
which are cached on the service state. -/
def uploadFile (st : ServiceState) (env : UploadEnv) (file : UploadFilePayload)
    (meta : PartialMetadata) : Except String UploadResult × ServiceState × List NetCall :=
  if truthy st.docsFolderId then
    uploadAfterInit st env file meta []
  else
    if truthy st.accessToken = false then
      (Except.error ("Upload failed: " ++ ("Failed to initialize folder structure: " ++
        errStr ("No access token available for folder initialization"))), st, [])
    else
      match env.initOutcome with
      | Except.error e =>
        (Except.error ("Upload failed: " ++ e), st,
          List.replicate (env.initExtraCalls + 1) NetCall.folderRequest)
      | Except.ok ids =>
        uploadAfterInit
          { st with
            rootFolderId := some ids.root
            docsFolderId := some ids.docs
            metadataFolderId := some ids.metadataFolder
            settingsFolderId := some ids.settings }
          env file meta (List.replicate (env.initExtraCalls + 1) NetCall.folderRequest)

/-! ### Token validation and listing -/

/-- Remote outcome of the lightweight `GET /about?fields=user` probe of
`validateToken`: an error is a thrown fetch failure, `ok b` is `response.ok`. -/
structure ValidateEnv where
  aboutOutcome : Except String Bool

/-- `validateToken()`: `false` without a token, otherwise the probe result;
a thrown fetch failure is rewrapped as `Error validating token: `. -/
def validateToken (st : ServiceState) (env : ValidateEnv) : Except String Bool :=
  if truthy st.accessToken = false then
    Except.ok false
  else
    match env.aboutOutcome with
    | Except.error e => Except.error ("Error validating token: " ++ e)
    | Except.ok b => Except.ok b

/-- The message listFiles throws when the explicit validation call rejects the
held token. -/
def SESSION_EXPIRED_MSG : String :=
  "Access token is expired or invalid. Please log in again."

/-- A content file as returned by the listing request with projection
`files(id,name,mimeType,size,createdTime,modifiedTime,webViewLink,webContentLink)`.
`size` and `webViewLink` may be absent. -/
structure NativeFile where
  id : String
  name : String
  mimeType : String
  size : Option Nat
  createdTime : Nat
  modifiedTime : Nat
  webViewLink : Option String
  deriving Repr, DecidableEq

/-- `file.webViewLink || 'https://drive.google.com/file/d/' + file.id + '/view'`. -/
def viewUrl (f : NativeFile) : String :=
  orDefaultStr f.webViewLink ("https://drive.google.com/file/d/" ++ (f.id ++ "/view"))

/-- The fallback record `listFiles` synthesizes for a content file whose
sidecar is missing or unreadable. -/
def fallbackMetadata (f : NativeFile) : FileMetadata :=
  ⟨f.id, f.name, f.mimeType, f.size.getD 0, f.createdTime, f.modifiedTime,
    some (""), [], some ("others"), none, some (viewUrl f)⟩

/-- Remote outcomes for one `listFiles` call.  `sidecar` gives, per content
file identifier, the outcome of `getFileMetadata`: an error is its thrown
message, `ok none` means no sidecar found, `ok (some m)` the parsed record. -/
structure ListEnv where
  validate : ValidateEnv
  initOutcome : Except String FolderIds
  listOutcome : Except String (List NativeFile)
  sidecar : String → Except String (Option FileMetadata)

/-- The per-file body of the listing loop: a found sidecar is used with
`fileUrl` overlaid from the native view link; a missing sidecar, or any error
while reading it, yields the synthesized fallback record (isolate-and-continue). -/
def processFile (s : String → Except String (Option FileMetadata)) (f : NativeFile) :
    FileMetadata :=
  match s f.id with
  | Except.ok (some m) => { m with fileUrl := some (viewUrl f) }
  | Except.ok none => fallbackMetadata f
  | Except.error _ => fallbackMetadata f

/-- `listFiles()`: token presence check, explicit token validation (rejected
token throws the session-expired message), lazy folder provisioning, listing
request, then the per-file loop in the provider's enumeration order.  The outer
catch rethrows the same error object, so messages pass through unchanged. -/
def listFiles (st : ServiceState) (env : ListEnv) : Except String (List FileMetadata) :=
  if truthy st.accessToken = false then
    Except.error ("No access token available")
  else
    match validateToken st env.validate with
    | Except.error e => Except.error e
    | Except.ok false => Except.error SESSION_EXPIRED_MSG
    | Except.ok true =>
      match (if truthy st.docsFolderId then Except.ok () else env.initOutcome.map fun _ => ()) with
      | Except.error e => Except.error e
      | Except.ok _ =>
        match env.listOutcome with
        | Except.error e => Except.error e
        | Except.ok files => Except.ok (files.map (processFile env.sidecar))

/-! ### Deletion -/

/-- The remote steps `deleteFile` can perform, in order: content-file DELETE,
sidecar search, sidecar DELETE. -/
inductive DeleteStep where
  | contentDelete
  | sidecarSearch
  | sidecarDelete
  deriving Repr, DecidableEq

/-- Remote outcomes for one `deleteFile` call.  `searchOutcome` returns the
identifiers of sidecar files matching `<fileId>_metadata.json` in the metadata
folder.  Error strings are renderings of the thrown error at that call. -/
structure DeleteEnv where
  contentOutcome : Except String Unit
  searchOutcome : Except String (List String)
  sidecarOutcome : Except String Unit

/-- `deleteFile(fileId)`: `false` without a token; otherwise delete the content
file, then (when a metadata folder identifier is held) search for the sidecar
and delete the first hit if any.  Any error at any step is caught once and
rethrown as `Failed to delete file: ` plus the rendering of the error. -/
def deleteFile (st : ServiceState) (env : DeleteEnv) (fileId : String) :
    Except String Bool × List DeleteStep :=
  if truthy st.accessToken = false then
    (Except.ok false, [])
  else
    match env.contentOutcome with
    | Except.error e =>
      (Except.error ("Failed to delete file: " ++ e), [DeleteStep.contentDelete])
    | Except.ok _ =>
      if truthy st.metadataFolderId = false then
        (Except.ok true, [DeleteStep.contentDelete])
      else
        match env.searchOutcome with
        | Except.error e =>
          (Except.error ("Failed to delete file: " ++ e),
            [DeleteStep.contentDelete, DeleteStep.sidecarSearch])
        | Except.ok [] =>
          (Except.ok true, [DeleteStep.contentDelete, DeleteStep.sidecarSearch])
        | Except.ok (_ :: _) =>
          match env.sidecarOutcome with
          | Except.error e =>
            (Except.error ("Failed to delete file: " ++ e),
              [DeleteStep.contentDelete, DeleteStep.sidecarSearch, DeleteStep.sidecarDelete])
          | Except.ok _ =>
            (Except.ok true,
              [DeleteStep.contentDelete, DeleteStep.sidecarSearch, DeleteStep.sidecarDelete])

/-! ### Metadata update -/

/-- The remote steps `updateMetadata` can perform, in order: sidecar read,
best-effort content-file rename, search for the old sidecar, delete it, write
the new sidecar. -/
inductive UpdateStep where
  | readSidecar
  | renameContent (newName : String)
  | searchOld
  | deleteOld
  | writeSidecar (record : FileMetadata)
  deriving Repr, DecidableEq

/-- Remote outcomes for one `updateMetadata` call.  `readOutcome` is the
outcome of `getFileMetadata`; `renameOutcome` is the outcome of
`updateFileName`, whose failure the source swallows; `searchOutcome` returns
the identifiers of old sidecar files; `writeOutcome` is the final sidecar
upload.  `now` is the current clock value. -/
structure UpdateEnv where
  readOutcome : Except String (Option FileMetadata)
  renameOutcome : Except String Unit
  searchOutcome : Except String (List String)
  deleteOutcome : Except String Unit
  writeOutcome : Except String Unit
  now : Nat

/-- The best-effort content-file rename of `updateMetadata`: attempted exactly
when the partial carries a truthy (nonempty) new name differing from the
existing record's name, `if (metadata.name && metadata.name !==
existingMetadata.name)` in the source. -/
def renameSteps (existing : FileMetadata) (meta : PartialMetadata) : List UpdateStep :=
  match meta.name with
  | some n => if n ≠ "" ∧ n ≠ existing.name then [UpdateStep.renameContent n] else []
  | none => []

/-- The final sidecar write of `updateMetadata` (shared by the found- and
not-found branches of the old-sidecar search). -/
def finishUpdate (env : UpdateEnv) (updated : FileMetadata) (steps : List UpdateStep) :
    Except String Bool × List UpdateStep :=
  match env.writeOutcome with
  | Except.error e =>
    (Except.error ("Failed to update metadata: " ++ e),
      steps ++ [UpdateStep.writeSidecar updated])
  | Except.ok _ => (Except.ok true, steps ++ [UpdateStep.writeSidecar updated])

/-- `updateMetadata(fileId, metadata)`: read the existing sidecar (`File
metadata not found` if absent), rename the content file when a truthy new name
differing from the existing one is supplied (failure swallowed), merge the
partial over the existing record with `modifiedTime` refreshed to the current
clock, then delete the old sidecar file (if found) and write the merged record
as a new sidecar.  Errors are caught once and rethrown with the
`Failed to update metadata: ` wrapping. -/
def updateMetadata (st : ServiceState) (env : UpdateEnv) (fileId : String)
    (meta : PartialMetadata) : Except String Bool × List UpdateStep :=
  if truthy st.metadataFolderId = false then
    (Except.error ("Failed to update metadata: " ++ errStr ("Metadata folder not initialized")), [])
  else
    match env.readOutcome with
    | Except.error e =>
      (Except.error ("Failed to update metadata: " ++ e), [UpdateStep.readSidecar])
    | Except.ok none =>
      (Except.error ("Failed to update metadata: " ++ errStr ("File metadata not found")),
        [UpdateStep.readSidecar])
    | Except.ok (some existing) =>
      match env.searchOutcome with
      | Except.error e =>
        (Except.error ("Failed to update metadata: " ++ e),
          (UpdateStep.readSidecar :: renameSteps existing meta) ++ [UpdateStep.searchOld])
      | Except.ok [] =>
        finishUpdate env { mergeMetadata existing meta with modifiedTime := env.now }
          ((UpdateStep.readSidecar :: renameSteps existing meta) ++ [UpdateStep.searchOld])
      | Except.ok (_ :: _) =>
        match env.deleteOutcome with
        | Except.error e =>
          (Except.error ("Failed to update metadata: " ++ e),
            (UpdateStep.readSidecar :: renameSteps existing meta) ++
              [UpdateStep.searchOld, UpdateStep.deleteOld])
        | Except.ok _ =>
          finishUpdate env { mergeMetadata existing meta with modifiedTime := env.now }
            ((UpdateStep.readSidecar :: renameSteps existing meta) ++
              [UpdateStep.searchOld, UpdateStep.deleteOld])

/-! ### Concrete inputs used by witnesses and counterexamples -/

/-- A session state with the folder structure already provisioned. -/
def wState : ServiceState :=
  ⟨some ("tok"), some ("root-1"), some ("docs-1"), some ("meta-1"), some ("settings-1")⟩

/-- A session state holding a token but with no folder identifiers cached. -/
def uState : ServiceState := ⟨some ("tok"), none, none, none, none⟩

/-- The four folder identifiers of the provisioned session. -/
def cFolderIds : FolderIds := ⟨"root-1", "docs-1", "meta-1", "settings-1"⟩

/-- A small payload. -/
def cFile : UploadFilePayload := ⟨"a.pdf", "application/pdf", 10⟩

/-- A payload one byte over the 100 MiB ceiling. -/
def bigFile : UploadFilePayload := ⟨"big.pdf", "application/pdf", MAX_FILE_SIZE + 1⟩

/-- An upload environment where every remote call succeeds. -/
def envUploadOk : UploadEnv :=
  ⟨Except.ok cFolderIds, 3, Except.ok (some ("fid-1")), Except.ok ("mid-1"), 5⟩

/-- An upload environment where the binary upload fails remotely. -/
def envUploadNetFail : UploadEnv :=
  ⟨Except.ok cFolderIds, 3, Except.error ("network unreachable"), Except.ok ("mid-1"), 5⟩

/-- A partial carrying an empty-string `documentName` override. -/
def pEmptyDoc : PartialMetadata := { emptyPartial with documentName := some ("") }

/-- A partial carrying a nonempty `documentName` override. -/
def pDocOverride : PartialMetadata := { emptyPartial with documentName := some ("stored.pdf") }

/-- A partial that carries an `id` field. -/
def pIdHijack : PartialMetadata := { emptyPartial with id := some ("hijacked") }

/-- A partial renaming the document to the empty string. -/
def pEmptyName : PartialMetadata := { emptyPartial with name := some ("") }

/-- A partial renaming the document to a fresh nonempty name. -/
def pNewName : PartialMetadata := { emptyPartial with name := some ("new-name.pdf") }

/-- An existing sidecar record for content file `fid-1`. -/
def existingRec : FileMetadata :=
  ⟨"fid-1", "a.pdf", "application/pdf", 10, 1, 2, none, [], none, none, none⟩

/-- An update environment where every remote call succeeds. -/
def envUpdateOk : UpdateEnv :=
  ⟨Except.ok (some existingRec), Except.ok (), Except.ok [("sc-old")], Except.ok (),
    Except.ok (), 42⟩

/-- An update environment whose content-file rename fails. -/
def envUpdateRenameFail : UpdateEnv :=
  ⟨Except.ok (some existingRec), Except.error ("rename refused"), Except.ok [("sc-old")],
    Except.ok (), Except.ok (), 42⟩

/-- An update environment where no sidecar exists for the file. -/
def envUpdateNotFound : UpdateEnv :=
  ⟨Except.ok none, Except.ok (), Except.ok [], Except.ok (), Except.ok (), 42⟩

/-- A delete environment whose content-file deletion fails remotely. -/
def envDeleteContentFail : DeleteEnv :=
  ⟨Except.error (errStr (remoteApiErrorMsg 500 ("boom"))), Except.ok [("sc-old")], Except.ok ()⟩

/-- A delete environment where the content deletion succeeds but the sidecar
search throws. -/
def envDeleteSearchFail : DeleteEnv :=
  ⟨Except.ok (), Except.error (errStr (remoteApiErrorMsg 500 ("search exploded"))), Except.ok ()⟩

/-- A delete environment where the content deletion succeeds and no sidecar
exists. -/
def envDeleteNoSidecar : DeleteEnv := ⟨Except.ok (), Except.ok [], Except.ok ()⟩

/-- A native content file with a view link and a found sidecar. -/
def nf1 : NativeFile :=
  ⟨"fid-1", "a.pdf", "application/pdf", some 10, 1, 2, some ("https://view.example/1")⟩

/-- A native content file with no view link, whose sidecar is missing. -/
def nf2 : NativeFile := ⟨"fid-2", "b.pdf", "application/pdf", none, 1, 2, none⟩

/-- A native content file whose sidecar read throws. -/
def nf3 : NativeFile := ⟨"fid-3", "c.pdf", "text/plain", some 7, 3, 4, none⟩

/-- A sidecar lookup: found for `fid-1`, missing for `fid-2`, unreadable for
`fid-3`. -/
def sidecarLookup (fid : String) : Except String (Option FileMetadata) :=
  if fid = "fid-1" then Except.ok (some existingRec)
  else if fid = "fid-3" then Except.error ("Failed to get file metadata: " ++ errStr ("parse"))
  else Except.ok none

/-- A listing environment where the token validates and the listing succeeds. -/
def envListOk : ListEnv :=
  ⟨⟨Except.ok true⟩, Except.ok cFolderIds, Except.ok [nf1, nf2, nf3], sidecarLookup⟩

/-- A listing environment whose validation probe rejects the token. -/
def envListExpired : ListEnv :=
  ⟨⟨Except.ok false⟩, Except.ok cFolderIds, Except.ok [], fun _ => Except.ok none⟩

/-! ## Theorems -/

/-- `(a ++ b).data = a.data ++ b.data`. -/
theorem string_data_append (a b : String) : (a ++ b).data = a.data ++ b.data := by
  cases a; cases b; rfl

/-- If the folder search already has a first hit, `findOrCreateFolder` returns
its identifier and leaves the remote state unchanged. -/
theorem findOrCreateFolder_of_firstFolderId (ds : DriveFolderState) (n : String)
    (p : Option String) (i : String)
    (h : firstFolderId ds n (p.getD ("root")) = some i) :
    findOrCreateFolder ds n p = (i, ds) := by
  unfold firstFolderId at h
  unfold findOrCreateFolder
  cases hs : searchFolders ds n (p.getD ("root")) with
  | nil => rw [hs] at h; simp at h
  | cons f t => rw [hs] at h; simp at h; simp [h]

/-- After `findOrCreateFolder`, the folder search on the resulting state has
the returned identifier as its first hit. -/
theorem firstFolderId_findOrCreateFolder (ds : DriveFolderState) (n : String)
    (p : Option String) :
    firstFolderId (findOrCreateFolder ds n p).2 n (p.getD ("root")) =
      some (findOrCreateFolder ds n p).1 := by
  unfold findOrCreateFolder
  cases hs : searchFolders ds n (p.getD ("root")) with
  | nil =>
    simp only [firstFolderId, searchFolders] at hs ⊢
    simp [List.filter_append, hs, folderQueryMatch]
  | cons f t =>
    simp only [firstFolderId]
    simp [hs]

/-- `findOrCreateFolder` only ever appends to the remote folder list. -/
theorem findOrCreateFolder_extends (ds : DriveFolderState) (n : String) (p : Option String) :
    FoldersExtend ds (findOrCreateFolder ds n p).2 := by
  unfold findOrCreateFolder
  cases hs : searchFolders ds n (p.getD ("root")) with
  | nil => exact ⟨_, rfl⟩
  | cons f t => exact ⟨[], by simp⟩

/-- Appending further folders never changes the first hit of a search that
already has one. -/
theorem firstFolderId_mono {ds ds2 : DriveFolderState} {n p i : String}
    (h : FoldersExtend ds ds2) (hi : firstFolderId ds n p = some i) :
    firstFolderId ds2 n p = some i := by
  obtain ⟨extra, he⟩ := h
  unfold firstFolderId searchFolders at hi ⊢
  rw [he, List.filter_append]
  cases hf : ds.folders.filter (folderQueryMatch n p) with
  | nil => rw [hf] at hi; simp at hi
  | cons f t => rw [hf] at hi; simp at hi; simp [hi]

/-- `FoldersExtend` is transitive. -/
theorem foldersExtend_trans {a b c : DriveFolderState}
    (h1 : FoldersExtend a b) (h2 : FoldersExtend b c) : FoldersExtend a c := by
  obtain ⟨e1, he1⟩ := h1
  obtain ⟨e2, he2⟩ := h2
  exact ⟨e1 ++ e2, by rw [he2, he1, List.append_assoc]⟩

/-- Claim C6: calling the folder-structure bootstrap twice in the same session
returns identical folder identifiers (root, docs, metadata, settings) both
times and does not create duplicate folders (the remote folder state is
unchanged by the second run), because each step searches for an existing
non-trashed folder of that exact name under the given parent before creating
one. -/
theorem initializeFolderStructure_idempotent (ds : DriveFolderState) :
    initializeFolderStructure (initializeFolderStructure ds).2 =
      initializeFolderStructure ds := by
  rcases hr : findOrCreateFolder ds ROOT_FOLDER_NAME none with ⟨root, ds1⟩
  rcases hd : findOrCreateFolder ds1 DOCS_FOLDER_NAME (some root) with ⟨docs, ds2⟩
  rcases hm : findOrCreateFolder ds2 METADATA_FOLDER_NAME (some root) with ⟨metaId, ds3⟩
  rcases hs : findOrCreateFolder ds3 SETTINGS_FOLDER_NAME (some root) with ⟨settings, ds4⟩
  have e1 : FoldersExtend ds1 ds2 := by
    have h := findOrCreateFolder_extends ds1 DOCS_FOLDER_NAME (some root)
    rw [hd] at h; exact h
  have e2 : FoldersExtend ds2 ds3 := by
    have h := findOrCreateFolder_extends ds2 METADATA_FOLDER_NAME (some root)
    rw [hm] at h; exact h
  have e3 : FoldersExtend ds3 ds4 := by
    have h := findOrCreateFolder_extends ds3 SETTINGS_FOLDER_NAME (some root)
    rw [hs] at h; exact h
  have f1 : firstFolderId ds4 ROOT_FOLDER_NAME ("root") = some root := by
    have h := firstFolderId_findOrCreateFolder ds ROOT_FOLDER_NAME none
    rw [hr] at h
    exact firstFolderId_mono (foldersExtend_trans e1 (foldersExtend_trans e2 e3)) h
  have f2 : firstFolderId ds4 DOCS_FOLDER_NAME root = some docs := by
    have h := firstFolderId_findOrCreateFolder ds1 DOCS_FOLDER_NAME (some root)
    rw [hd] at h
    exact firstFolderId_mono (foldersExtend_trans e2 e3) h
  have f3 : firstFolderId ds4 METADATA_FOLDER_NAME root = some metaId := by
    have h := firstFolderId_findOrCreateFolder ds2 METADATA_FOLDER_NAME (some root)
    rw [hm] at h
    exact firstFolderId_mono e3 h
  have f4 : firstFolderId ds4 SETTINGS_FOLDER_NAME root = some settings := by
    have h := firstFolderId_findOrCreateFolder ds3 SETTINGS_FOLDER_NAME (some root)
    rw [hs] at h
    exact h
  have g1 : findOrCreateFolder ds4 ROOT_FOLDER_NAME none = (root, ds4) :=
    findOrCreateFolder_of_firstFolderId ds4 ROOT_FOLDER_NAME none root f1
  have g2 : findOrCreateFolder ds4 DOCS_FOLDER_NAME (some root) = (docs, ds4) :=
    findOrCreateFolder_of_firstFolderId ds4 DOCS_FOLDER_NAME (some root) docs f2
  have g3 : findOrCreateFolder ds4 METADATA_FOLDER_NAME (some root) = (metaId, ds4) :=
    findOrCreateFolder_of_firstFolderId ds4 METADATA_FOLDER_NAME (some root) metaId f3
  have g4 : findOrCreateFolder ds4 SETTINGS_FOLDER_NAME (some root) = (settings, ds4) :=
    findOrCreateFolder_of_firstFolderId ds4 SETTINGS_FOLDER_NAME (some root) settings f4
  simp [initializeFolderStructure, hr, hd, hm, hs, g1, g2, g3, g4]

/-- Shape of every outcome of the post-provisioning part of `uploadFile`: the
only structured failure result is the size-limit one; every other failure is a
thrown error wrapped as `Upload failed: `. -/
theorem uploadAfterInit_shape (st : ServiceState) (env : UploadEnv) (file : UploadFilePayload)
    (meta : PartialMetadata) (calls : List NetCall) :
    (∃ r, (uploadAfterInit st env file meta calls).1 = Except.ok r ∧
      ((r.success = true ∧ r.error = none) ∨
        (r.success = false ∧ r.error = some sizeLimitError))) ∨
    (∃ s, (uploadAfterInit st env file meta calls).1 =
      Except.error ("Upload failed: " ++ s)) := by
  by_cases hsz : file.size > MAX_FILE_SIZE
  · exact Or.inl ⟨⟨false, none, none, some sizeLimitError⟩,
      by simp [uploadAfterInit, hsz], Or.inr ⟨rfl, rfl⟩⟩
  · rcases hu : env.uploadOutcome with e | o
    · exact Or.inr ⟨e, by simp [uploadAfterInit, hsz, hu]⟩
    · rcases o with _ | fid
      · exact Or.inr ⟨"Upload response missing file ID", by simp [uploadAfterInit, hsz, hu]⟩
      · by_cases hm : truthy st.metadataFolderId = false
        · exact Or.inr ⟨"Metadata folder not initialized",
            by simp [uploadAfterInit, hsz, hu, hm]⟩
        · rcases hs2 : env.saveOutcome with e | mid
          · exact Or.inr ⟨e, by simp [uploadAfterInit, hsz, hu, hm, hs2]⟩
          · exact Or.inl ⟨⟨true, some fid, some mid, none⟩,
              by simp [uploadAfterInit, hsz, hu, hm, hs2], Or.inl ⟨rfl, rfl⟩⟩

/-- Claim C1 (amended): every call to `uploadFile` either returns a structured
result — a success with no error message, or the size-limit failure, the one
failure reported as data — or throws an error wrapped as `Upload failed: `;
remote failures and provisioning failures are thrown, not returned. -/
theorem uploadFile_failure_reporting (st : ServiceState) (env : UploadEnv)
    (file : UploadFilePayload) (meta : PartialMetadata) :
    (∃ r, (uploadFile st env file meta).1 = Except.ok r ∧
      ((r.success = true ∧ r.error = none) ∨
        (r.success = false ∧ r.error = some sizeLimitError))) ∨
    (∃ s, (uploadFile st env file meta).1 = Except.error ("Upload failed: " ++ s)) := by
  by_cases hd : truthy st.docsFolderId = true
  · have h : uploadFile st env file meta = uploadAfterInit st env file meta [] := by
      simp [uploadFile, hd]
    rw [h]
    exact uploadAfterInit_shape st env file meta []
  · have hd2 : truthy st.docsFolderId = false := by
      cases h : truthy st.docsFolderId
      · rfl
      · exact absurd h hd
    by_cases ht : truthy st.accessToken = false
    · exact Or.inr ⟨"Failed to initialize folder structure: " ++
        errStr ("No access token available for folder initialization"),
        by simp [uploadFile, hd2, ht]⟩
    · rcases hi : env.initOutcome with e | ids
      · exact Or.inr ⟨e, by simp [uploadFile, hd2, ht, hi]⟩
      · have h : uploadFile st env file meta =
            uploadAfterInit
              { st with
                rootFolderId := some ids.root
                docsFolderId := some ids.docs
                metadataFolderId := some ids.metadataFolder
                settingsFolderId := some ids.settings }
              env file meta (List.replicate (env.initExtraCalls + 1) NetCall.folderRequest) := by
          simp [uploadFile, hd2, ht, hi]
        rw [h]
        exact uploadAfterInit_shape _ env file meta _

/-- Claim C1, counterexample to the claim as stated: with the folder structure
provisioned and a remote failure of the binary upload, `uploadFile` throws
(an `Except.error`, the model of an exception escaping its boundary) instead
of returning a structured failure result. -/
theorem uploadFile_throws_counterexample :
    (uploadFile wState envUploadNetFail cFile emptyPartial).1 =
      Except.error ("Upload failed: network unreachable") := by
  rfl

/-- Claim C3 (amended): for an oversized upload, `uploadFile` returns the
structured size-limit failure; no network call is made when the folder
structure is already provisioned, but when it is not yet provisioned (and a
token is held), folder-provisioning network calls are made before the size
check returns the failure. -/
theorem uploadFile_size_check (st : ServiceState) (env : UploadEnv)
    (file : UploadFilePayload) (meta : PartialMetadata)
    (hsize : file.size > MAX_FILE_SIZE) :
    (truthy st.docsFolderId = true →
      uploadFile st env file meta =
        (Except.ok ⟨false, none, none, some sizeLimitError⟩, st, [])) ∧
    (∀ ids, truthy st.docsFolderId = false → truthy st.accessToken = true →
      env.initOutcome = Except.ok ids →
      (uploadFile st env file meta).1 = Except.ok ⟨false, none, none, some sizeLimitError⟩ ∧
      (uploadFile st env file meta).2.2 ≠ []) := by
  constructor
  · intro hd
    simp [uploadFile, uploadAfterInit, hd, hsize]
  · intro ids hd ht hi
    constructor
    · simp [uploadFile, uploadAfterInit, hd, ht, hi, hsize]
    · simp [uploadFile, uploadAfterInit, hd, ht, hi, hsize, List.replicate_succ]

/-- Witness for `uploadFile_size_check` at a concrete oversized payload. -/
theorem uploadFile_size_check_witness :
    (truthy uState.docsFolderId = true →
      uploadFile uState envUploadOk bigFile emptyPartial =
        (Except.ok ⟨false, none, none, some sizeLimitError⟩, uState, [])) ∧
    (∀ ids, truthy uState.docsFolderId = false → truthy uState.accessToken = true →
      envUploadOk.initOutcome = Except.ok ids →
      (uploadFile uState envUploadOk bigFile emptyPartial).1 =
        Except.ok ⟨false, none, none, some sizeLimitError⟩ ∧
      (uploadFile uState envUploadOk bigFile emptyPartial).2.2 ≠ []) :=
  uploadFile_size_check uState envUploadOk bigFile emptyPartial (by decide)

/-- Claim C3, counterexample to the claim as stated: an oversized upload from
an unprovisioned session performs folder-provisioning network calls (four
here) before returning the size-limit failure, so the zero-network-call part
does not hold regardless of provisioning state. -/
theorem uploadFile_oversize_calls_counterexample :
    (uploadFile uState envUploadOk bigFile emptyPartial).1 =
      Except.ok ⟨false, none, none, some sizeLimitError⟩ ∧
    (uploadFile uState envUploadOk bigFile emptyPartial).2.2 =
      [NetCall.folderRequest, NetCall.folderRequest, NetCall.folderRequest,
        NetCall.folderRequest] ∧
    [NetCall.folderRequest, NetCall.folderRequest, NetCall.folderRequest,
      NetCall.folderRequest] ≠ ([] : List NetCall) := by
  exact ⟨rfl, rfl, by simp⟩

/-- Claim C10 (amended): when a nonempty `documentName` override differing from
the payload name is supplied and the upload succeeds, the content file is
stored under the override name while the sidecar record keeps the payload
name, so the two names diverge. -/
theorem uploadFile_name_divergence (st : ServiceState) (env : UploadEnv)
    (file : UploadFilePayload) (meta : PartialMetadata) (d fid mid : String)
    (hdoc : meta.documentName = some d) (hne : d ≠ "") (hdiff : d ≠ file.name)
    (hdocs : truthy st.docsFolderId = true) (hmeta : truthy st.metadataFolderId = true)
    (hsize : ¬ file.size > MAX_FILE_SIZE)
    (hup : env.uploadOutcome = Except.ok (some fid))
    (hsave : env.saveOutcome = Except.ok mid) :
    (uploadFile st env file meta).2.2 =
      [NetCall.uploadRequest d,
        NetCall.saveMetadataRequest (uploadSidecarRecord env file meta fid)] ∧
    (uploadSidecarRecord env file meta fid).name = file.name ∧
    (uploadSidecarRecord env file meta fid).name ≠ d := by
  refine ⟨?_, rfl, Ne.symm hdiff⟩
  simp [uploadFile, uploadAfterInit, hdocs, hsize, hup, hmeta, hsave, orDefaultStr, hdoc, hne]

/-- Witness for `uploadFile_name_divergence` at a concrete override. -/
theorem uploadFile_name_divergence_witness :
    (uploadFile wState envUploadOk cFile pDocOverride).2.2 =
      [NetCall.uploadRequest ("stored.pdf"),
        NetCall.saveMetadataRequest
          (uploadSidecarRecord envUploadOk cFile pDocOverride ("fid-1"))] ∧
    (uploadSidecarRecord envUploadOk cFile pDocOverride ("fid-1")).name = cFile.name ∧
    (uploadSidecarRecord envUploadOk cFile pDocOverride ("fid-1")).name ≠ "stored.pdf" :=
  uploadFile_name_divergence wState envUploadOk cFile pDocOverride ("stored.pdf") ("fid-1")
    ("mid-1") rfl (by decide) (by decide) (by decide) (by decide) (by decide) rfl rfl

/-- Claim C10, counterexample to the claim as stated: an empty-string
`documentName` override is supplied and differs from the payload name, yet the
content file is stored under the payload name (the override is falsy in the
`metadata.documentName || file.name` choice), so no divergence occurs and the
file is not stored under the override name. -/
theorem uploadFile_empty_override_counterexample :
    pEmptyDoc.documentName = some ("") ∧
    cFile.name = "a.pdf" ∧
    ("" : String) ≠ "a.pdf" ∧
    (uploadFile wState envUploadOk cFile pEmptyDoc).2.2 =
      [NetCall.uploadRequest ("a.pdf"),
        NetCall.saveMetadataRequest
          (uploadSidecarRecord envUploadOk cFile pEmptyDoc ("fid-1"))] := by
  exact ⟨rfl, rfl, by decide, rfl⟩

/-- Claim C9: when deleting the content file fails, the whole `deleteFile`
operation fails with the wrapped remote error, and no sidecar search or
sidecar deletion is performed — the sidecar is left untouched. -/
theorem deleteFile_content_failure_aborts (st : ServiceState) (env : DeleteEnv)
    (fileId : String) (e : String)
    (htok : truthy st.accessToken = true) (hc : env.contentOutcome = Except.error e) :
    deleteFile st env fileId =
      (Except.error ("Failed to delete file: " ++ e), [DeleteStep.contentDelete]) ∧
    DeleteStep.sidecarSearch ∉ (deleteFile st env fileId).2 ∧
    DeleteStep.sidecarDelete ∉ (deleteFile st env fileId).2 := by
  have h : deleteFile st env fileId =
      (Except.error ("Failed to delete file: " ++ e), [DeleteStep.contentDelete]) := by
    simp [deleteFile, htok, hc]
  refine ⟨h, ?_, ?_⟩ <;> simp [h]

/-- Witness for `deleteFile_content_failure_aborts` at a concrete remote
failure. -/
theorem deleteFile_content_failure_aborts_witness :
    deleteFile wState envDeleteContentFail ("fid-1") =
      (Except.error ("Failed to delete file: " ++ errStr (remoteApiErrorMsg 500 ("boom"))),
        [DeleteStep.contentDelete]) ∧
    DeleteStep.sidecarSearch ∉ (deleteFile wState envDeleteContentFail ("fid-1")).2 ∧
    DeleteStep.sidecarDelete ∉ (deleteFile wState envDeleteContentFail ("fid-1")).2 :=
  deleteFile_content_failure_aborts wState envDeleteContentFail ("fid-1")
    (errStr (remoteApiErrorMsg 500 ("boom"))) (by decide) rfl

/-- Claim C2 (amended): on content-file deletion success, absence of the
sidecar (an empty search result) is treated as success of the whole operation;
but an internal error thrown during the sidecar search, or during the sidecar
deletion, after the content file is gone makes the whole operation throw a
wrapped failure rather than report success. -/
theorem deleteFile_sidecar_policy (st : ServiceState) (env : DeleteEnv) (fileId : String)
    (htok : truthy st.accessToken = true) (hc : env.contentOutcome = Except.ok ())
    (hm : truthy st.metadataFolderId = true) :
    (env.searchOutcome = Except.ok [] →
      deleteFile st env fileId =
        (Except.ok true, [DeleteStep.contentDelete, DeleteStep.sidecarSearch])) ∧
    (∀ e, env.searchOutcome = Except.error e →
      (deleteFile st env fileId).1 = Except.error ("Failed to delete file: " ++ e)) ∧
    (∀ sc rest e, env.searchOutcome = Except.ok (sc :: rest) →
      env.sidecarOutcome = Except.error e →
      (deleteFile st env fileId).1 = Except.error ("Failed to delete file: " ++ e)) := by
  refine ⟨?_, ?_, ?_⟩
  · intro hs
    simp [deleteFile, htok, hc, hm, hs]
  · intro e hs
    simp [deleteFile, htok, hc, hm, hs]
  · intro sc rest e hs hsc
    simp [deleteFile, htok, hc, hm, hs, hsc]

/-- Witness for `deleteFile_sidecar_policy` in a session with the metadata
folder provisioned and a successful content deletion. -/
theorem deleteFile_sidecar_policy_witness :
    (envDeleteNoSidecar.searchOutcome = Except.ok [] →
      deleteFile wState envDeleteNoSidecar ("fid-1") =
        (Except.ok true, [DeleteStep.contentDelete, DeleteStep.sidecarSearch])) ∧
    (∀ e, envDeleteNoSidecar.searchOutcome = Except.error e →
      (deleteFile wState envDeleteNoSidecar ("fid-1")).1 =
        Except.error ("Failed to delete file: " ++ e)) ∧
    (∀ sc rest e, envDeleteNoSidecar.searchOutcome = Except.ok (sc :: rest) →
      envDeleteNoSidecar.sidecarOutcome = Except.error e →
      (deleteFile wState envDeleteNoSidecar ("fid-1")).1 =
        Except.error ("Failed to delete file: " ++ e)) :=
  deleteFile_sidecar_policy wState envDeleteNoSidecar ("fid-1") (by decide) rfl (by decide)

/-- Claim C2, counterexample to the claim as stated: the content deletion
succeeds, then the sidecar search throws, and the whole operation fails with a
thrown error instead of returning the boolean success signal. -/
theorem deleteFile_sidecar_error_counterexample :
    (deleteFile wState envDeleteSearchFail ("fid-1")).1 =
      Except.error ("Failed to delete file: " ++
        errStr (remoteApiErrorMsg 500 ("search exploded"))) ∧
    (deleteFile wState envDeleteSearchFail ("fid-1")).1 ≠ Except.ok true := by
  have h : (deleteFile wState envDeleteSearchFail ("fid-1")).1 =
      Except.error ("Failed to delete file: " ++
        errStr (remoteApiErrorMsg 500 ("search exploded"))) := rfl
  exact ⟨h, by simp [h]⟩

/-- Claim C8, counterexample to the claim as stated: a partial carrying the
empty string as the new display name changes the stored display name (the
merged record's name becomes empty, differing from the existing name), yet no
rename of the content file is attempted, because the source guards the rename
with JavaScript truthiness of the new name. -/
theorem updateMetadata_empty_name_counterexample :
    pEmptyName.name = some ("") ∧
    existingRec.name = "a.pdf" ∧
    (mergeMetadata existingRec pEmptyName).name = "" ∧
    updateMetadata wState envUpdateOk ("fid-1") pEmptyName =
      (Except.ok true,
        [UpdateStep.readSidecar, UpdateStep.searchOld, UpdateStep.deleteOld,
          UpdateStep.writeSidecar
            { mergeMetadata existingRec pEmptyName with modifiedTime := 42 }]) := by
  exact ⟨rfl, rfl, rfl, rfl⟩

/-- Claim C8 (amended): `updateMetadata` fails with the metadata-not-found
error when no sidecar exists; otherwise it merges the partial fields over the
existing record with `modifiedTime` refreshed to the current clock and writes
the merged record, and when a nonempty new display name differing from the
existing one is supplied it attempts to rename the content file, a best-effort
step whose outcome never influences the result. -/
theorem updateMetadata_contract (st : ServiceState) (env : UpdateEnv) (fileId : String)
    (meta : PartialMetadata) (hmf : truthy st.metadataFolderId = true) :
    (env.readOutcome = Except.ok none →
      updateMetadata st env fileId meta =
        (Except.error ("Failed to update metadata: " ++ errStr ("File metadata not found")),
          [UpdateStep.readSidecar])) ∧
    (∀ existing n, env.readOutcome = Except.ok (some existing) → meta.name = some n →
      n ≠ "" → n ≠ existing.name →
      UpdateStep.renameContent n ∈ (updateMetadata st env fileId meta).2) ∧
    (∀ ro, updateMetadata st { env with renameOutcome := ro } fileId meta =
      updateMetadata st env fileId meta) ∧
    (∀ existing hits, env.readOutcome = Except.ok (some existing) →
      env.searchOutcome = Except.ok hits → env.deleteOutcome = Except.ok () →
      env.writeOutcome = Except.ok () →
      (updateMetadata st env fileId meta).1 = Except.ok true ∧
      UpdateStep.writeSidecar { mergeMetadata existing meta with modifiedTime := env.now } ∈
        (updateMetadata st env fileId meta).2) := by
  refine ⟨?_, ?_, ?_, ?_⟩
  · intro hr
    simp [updateMetadata, hmf, hr]
  · intro existing n hr hn hne hdiff
    rcases hs2 : env.searchOutcome with e | hits
    · simp [updateMetadata, hmf, hr, hs2, hn, hne, hdiff, renameSteps]
    · rcases hits with _ | ⟨sc, rest⟩
      · rcases hw : env.writeOutcome with e | u <;>
          simp [updateMetadata, finishUpdate, hmf, hr, hs2, hw, hn, hne, hdiff, renameSteps]
      · rcases hdel : env.deleteOutcome with e | u
        · simp [updateMetadata, hmf, hr, hs2, hdel, hn, hne, hdiff, renameSteps]
        · rcases hw : env.writeOutcome with e | u <;>
            simp [updateMetadata, finishUpdate, hmf, hr, hs2, hdel, hw, hn, hne, hdiff, renameSteps]
  · intro ro
    cases env
    rfl
  · intro existing hits hr hs2 hdel hw
    rcases hits with _ | ⟨sc, rest⟩
    · constructor <;> simp [updateMetadata, finishUpdate, hmf, hr, hs2, hw]
    · constructor <;> simp [updateMetadata, finishUpdate, hmf, hr, hs2, hdel, hw]

/-- Witness for `updateMetadata_contract` in a provisioned session with a
concrete rename to a fresh nonempty name. -/
theorem updateMetadata_contract_witness :
    UpdateStep.renameContent ("new-name.pdf") ∈
      (updateMetadata wState envUpdateOk ("fid-1") pNewName).2 ∧
    (updateMetadata wState envUpdateOk ("fid-1") pNewName).1 = Except.ok true ∧
    updateMetadata wState envUpdateRenameFail ("fid-1") pNewName =
      updateMetadata wState envUpdateOk ("fid-1") pNewName ∧
    updateMetadata wState envUpdateNotFound ("fid-1") pNewName =
      (Except.error ("Failed to update metadata: " ++ errStr ("File metadata not found")),
        [UpdateStep.readSidecar]) := by
  have h := updateMetadata_contract wState envUpdateOk ("fid-1") pNewName (by decide)
  have h2 := updateMetadata_contract wState envUpdateNotFound ("fid-1") pNewName (by decide)
  refine ⟨h.2.1 existingRec ("new-name.pdf") rfl rfl (by decide) (by decide),
    (h.2.2.2 existingRec [("sc-old")] rfl rfl rfl rfl).1, ?_, h2.1 rfl⟩
  exact h.2.2.1 (Except.error ("rename refused"))

/-- Any sidecar record passed to `saveMetadata` by the post-provisioning part
of `uploadFile` is the constructed record keyed by the provider-assigned
identifier of the successful binary upload. -/
theorem uploadAfterInit_saveMetadataRequest_mem (st : ServiceState) (env : UploadEnv)
    (file : UploadFilePayload) (meta : PartialMetadata) (calls : List NetCall)
    (r : FileMetadata) (hcalls : NetCall.saveMetadataRequest r ∉ calls)
    (h : NetCall.saveMetadataRequest r ∈ (uploadAfterInit st env file meta calls).2.2) :
    ∃ fid, env.uploadOutcome = Except.ok (some fid) ∧
      r = uploadSidecarRecord env file meta fid := by
  by_cases hsz : file.size > MAX_FILE_SIZE
  · simp [uploadAfterInit, hsz] at h
    exact absurd h hcalls
  · rcases hu : env.uploadOutcome with e | o
    · simp [uploadAfterInit, hsz, hu] at h
      exact absurd h hcalls
    · rcases o with _ | fid
      · simp [uploadAfterInit, hsz, hu] at h
        exact absurd h hcalls
      · cases hm : truthy st.metadataFolderId
        · simp [uploadAfterInit, hsz, hu, hm] at h
          exact absurd h hcalls
        · rcases hs2 : env.saveOutcome with e | mid <;>
          · simp [uploadAfterInit, hsz, hu, hm, hs2] at h
            rcases h with h | h
            · exact absurd h hcalls
            · exact ⟨fid, rfl, h⟩

/-- Any sidecar record passed to `saveMetadata` by `uploadFile` is the
constructed record keyed by the provider-assigned identifier of the successful
binary upload. -/
theorem uploadFile_saveMetadataRequest_mem (st : ServiceState) (env : UploadEnv)
    (file : UploadFilePayload) (meta : PartialMetadata) (r : FileMetadata)
    (h : NetCall.saveMetadataRequest r ∈ (uploadFile st env file meta).2.2) :
    ∃ fid, env.uploadOutcome = Except.ok (some fid) ∧
      r = uploadSidecarRecord env file meta fid := by
  by_cases hd : truthy st.docsFolderId = true
  · have heq : uploadFile st env file meta = uploadAfterInit st env file meta [] := by
      simp [uploadFile, hd]
    rw [heq] at h
    exact uploadAfterInit_saveMetadataRequest_mem _ _ _ _ _ _ (by simp) h
  · have hd2 : truthy st.docsFolderId = false := by
      cases h2 : truthy st.docsFolderId
      · rfl
      · exact absurd h2 hd
    by_cases ht : truthy st.accessToken = false
    · simp [uploadFile, hd2, ht] at h
    · rcases hi : env.initOutcome with e | ids
      · simp [uploadFile, hd2, ht, hi, List.mem_replicate] at h
      · have heq : uploadFile st env file meta =
            uploadAfterInit
              { st with
                rootFolderId := some ids.root
                docsFolderId := some ids.docs
                metadataFolderId := some ids.metadataFolder
                settingsFolderId := some ids.settings }
              env file meta (List.replicate (env.initExtraCalls + 1) NetCall.folderRequest) := by
          simp [uploadFile, hd2, ht, hi]
        rw [heq] at h
        exact uploadAfterInit_saveMetadataRequest_mem _ _ _ _ _ _
          (by simp [List.mem_replicate]) h

/-- The best-effort rename step list never contains a sidecar write. -/
theorem writeSidecar_not_mem_renameSteps (existing : FileMetadata) (meta : PartialMetadata)
    (r : FileMetadata) : UpdateStep.writeSidecar r ∉ renameSteps existing meta := by
  rcases hn : meta.name with _ | n
  · simp [renameSteps, hn]
  · simp only [renameSteps, hn]
    split <;> simp

/-- Any record written as the new sidecar by `updateMetadata` is the merge of
the partial over the existing record with `modifiedTime` refreshed. -/
theorem updateMetadata_writeSidecar_mem (st : ServiceState) (env : UpdateEnv)
    (fileId : String) (meta : PartialMetadata) (existing : FileMetadata) (r : FileMetadata)
    (hr : env.readOutcome = Except.ok (some existing))
    (h : UpdateStep.writeSidecar r ∈ (updateMetadata st env fileId meta).2) :
    r = { mergeMetadata existing meta with modifiedTime := env.now } := by
  cases hmf : truthy st.metadataFolderId
  · simp [updateMetadata, hmf] at h
  · rcases hs2 : env.searchOutcome with e | hits
    · simp [updateMetadata, hmf, hr, hs2] at h
      exact absurd h (writeSidecar_not_mem_renameSteps existing meta r)
    · rcases hits with _ | ⟨sc, rest⟩
      · rcases hw : env.writeOutcome with e | u <;>
        · simp [updateMetadata, finishUpdate, hmf, hr, hs2, hw] at h
          rcases h with h | h
          · exact absurd h (writeSidecar_not_mem_renameSteps existing meta r)
          · exact h
      · rcases hdel : env.deleteOutcome with e | u
        · simp [updateMetadata, hmf, hr, hs2, hdel] at h
          exact absurd h (writeSidecar_not_mem_renameSteps existing meta r)
        · rcases hw : env.writeOutcome with e | u <;>
          · simp [updateMetadata, finishUpdate, hmf, hr, hs2, hdel, hw] at h
            rcases h with h | h
            · exact absurd h (writeSidecar_not_mem_renameSteps existing meta r)
            · exact h

/-- Claim C4 (amended): a `FileRecord` receives the content file's
provider-assigned identifier as its `id` at creation — the sidecar written by
`uploadFile` carries the uploaded file's identifier, the listing fallback uses
the enumerated file's own identifier, and a found sidecar's stored `id` passes
through listing unchanged — and `updateMetadata` preserves `id` for every
partial that does not itself carry an `id` field; a partial carrying `id`
overwrites it (see the counterexample). -/
theorem fileRecord_id_integrity :
    (∀ st env file meta r,
      NetCall.saveMetadataRequest r ∈ (uploadFile st env file meta).2.2 →
      ∃ fid, env.uploadOutcome = Except.ok (some fid) ∧ r.id = fid) ∧
    (∀ st env fileId meta existing r, meta.id = none →
      env.readOutcome = Except.ok (some existing) →
      UpdateStep.writeSidecar r ∈ (updateMetadata st env fileId meta).2 →
      r.id = existing.id) ∧
    (∀ s f, (s f.id = Except.ok none ∨ ∃ e, s f.id = Except.error e) →
      (processFile s f).id = f.id) ∧
    (∀ s f m, s f.id = Except.ok (some m) → (processFile s f).id = m.id) := by
  refine ⟨?_, ?_, ?_, ?_⟩
  · intro st env file meta r h
    obtain ⟨fid, hu, hrec⟩ := uploadFile_saveMetadataRequest_mem st env file meta r h
    exact ⟨fid, hu, by simp [hrec, uploadSidecarRecord]⟩
  · intro st env fileId meta existing r hid hr h
    have heq := updateMetadata_writeSidecar_mem st env fileId meta existing r hr h
    rw [heq]
    simp [mergeMetadata, hid]
  · rintro s f (hbad | ⟨e, hbad⟩) <;> simp [processFile, hbad, fallbackMetadata]
  · intro s f m hm
    simp [processFile, hm]

/-- Witness for `fileRecord_id_integrity` at concrete inputs for each part. -/
theorem fileRecord_id_integrity_witness :
    (∃ fid, envUploadOk.uploadOutcome = Except.ok (some fid) ∧
      (uploadSidecarRecord envUploadOk cFile emptyPartial ("fid-1")).id = fid) ∧
    ({ mergeMetadata existingRec emptyPartial with modifiedTime := 42 } : FileMetadata).id =
      existingRec.id ∧
    (processFile sidecarLookup nf2).id = nf2.id ∧
    (processFile sidecarLookup nf1).id = existingRec.id := by
  have h := fileRecord_id_integrity
  exact ⟨h.1 wState envUploadOk cFile emptyPartial _ (by decide),
    h.2.1 wState envUpdateOk ("fid-1") emptyPartial existingRec _ rfl rfl (by decide),
    h.2.2.1 sidecarLookup nf2 (Or.inl rfl), h.2.2.2 sidecarLookup nf1 existingRec rfl⟩

/-- Claim C4, counterexample to the claim as stated: `updateMetadata` called
with a partial that itself carries an `id` field writes a sidecar whose `id`
differs from the existing record's `id` — the spread
`{...existingMetadata, ...metadata}` lets a partial overwrite `id`. -/
theorem updateMetadata_id_overwrite_counterexample :
    existingRec.id = "fid-1" ∧
    pIdHijack.id = some ("hijacked") ∧
    UpdateStep.writeSidecar { mergeMetadata existingRec pIdHijack with modifiedTime := 42 } ∈
      (updateMetadata wState envUpdateOk ("fid-1") pIdHijack).2 ∧
    (mergeMetadata existingRec pIdHijack).id = "hijacked" := by
  exact ⟨rfl, rfl, by decide, rfl⟩

/-- Claim C5: a successful `listFiles` enumeration yields exactly one record
per content file, in the provider's native order (the result is the map of the
per-file body over the enumeration), and every file whose sidecar is missing
or unreadable yields the synthesized fallback record with empty description,
empty tags, the `others` category placeholder, and `fileUrl` from the native
view link or the constructed fallback URL; a sidecar failure never aborts the
listing of the remaining files. -/
theorem listFiles_fallback_isolation (st : ServiceState) (env : ListEnv)
    (files : List NativeFile)
    (htok : truthy st.accessToken = true) (hval : env.validate.aboutOutcome = Except.ok true)
    (hdocs : truthy st.docsFolderId = true) (hlist : env.listOutcome = Except.ok files) :
    listFiles st env = Except.ok (files.map (processFile env.sidecar)) ∧
    (files.map (processFile env.sidecar)).length = files.length ∧
    ∀ f ∈ files, (env.sidecar f.id = Except.ok none ∨ ∃ e, env.sidecar f.id = Except.error e) →
      processFile env.sidecar f = fallbackMetadata f ∧
      (processFile env.sidecar f).description = some ("") ∧
      (processFile env.sidecar f).tags = [] ∧
      (processFile env.sidecar f).category = some ("others") ∧
      (processFile env.sidecar f).fileUrl = some (viewUrl f) := by
  refine ⟨?_, by simp, ?_⟩
  · simp [listFiles, validateToken, htok, hval, hdocs, hlist]
  · rintro f - (hbad | ⟨e, hbad⟩) <;> simp [processFile, hbad, fallbackMetadata]

/-- Witness for `listFiles_fallback_isolation` on a concrete enumeration with
a found sidecar, a missing sidecar and an unreadable sidecar. -/
theorem listFiles_fallback_isolation_witness :
    listFiles wState envListOk = Except.ok ([nf1, nf2, nf3].map (processFile envListOk.sidecar)) ∧
    ([nf1, nf2, nf3].map (processFile envListOk.sidecar)).length = [nf1, nf2, nf3].length ∧
    ∀ f ∈ [nf1, nf2, nf3],
      (envListOk.sidecar f.id = Except.ok none ∨ ∃ e, envListOk.sidecar f.id = Except.error e) →
      processFile envListOk.sidecar f = fallbackMetadata f ∧
      (processFile envListOk.sidecar f).description = some ("") ∧
      (processFile envListOk.sidecar f).tags = [] ∧
      (processFile envListOk.sidecar f).category = some ("others") ∧
      (processFile envListOk.sidecar f).fileUrl = some (viewUrl f) :=
  listFiles_fallback_isolation wState envListOk [nf1, nf2, nf3] (by decide) rfl (by decide) rfl

/-- Claim C7: with a token held but rejected by the explicit validation call,
`listFiles` fails with the session-expired message, which differs from every
generic remote-error message produced by `makeRequest`, so a caller can
distinguish re-authentication from transient failure. -/
theorem listFiles_session_expired (st : ServiceState) (env : ListEnv)
    (htok : truthy st.accessToken = true)
    (hval : env.validate.aboutOutcome = Except.ok false) :
    listFiles st env = Except.error SESSION_EXPIRED_MSG ∧
    ∀ status body, SESSION_EXPIRED_MSG ≠ remoteApiErrorMsg status body := by
  constructor
  · simp [listFiles, validateToken, htok, hval]
  · intro status body h
    have h1 : SESSION_EXPIRED_MSG.data.head? = some ('A') := rfl
    rw [h] at h1
    have h2 : (remoteApiErrorMsg status body).data.head? = some ('G') := by
      unfold remoteApiErrorMsg
      rw [string_data_append]
      rfl
    rw [h2] at h1
    exact absurd h1 (by decide)

/-- Witness for `listFiles_session_expired` at a concrete rejected token. -/
theorem listFiles_session_expired_witness :
    listFiles wState envListExpired = Except.error SESSION_EXPIRED_MSG ∧
    ∀ status body, SESSION_EXPIRED_MSG ≠ remoteApiErrorMsg status body :=
  listFiles_session_expired wState envListExpired (by decide) rfl

end WeCare
